import Mathlib

/-!
Verification of the Streamlit stock-dashboard frontend (`app.py`).

The development shallowly embeds the client-side orchestration layer:
the API Gateway (`fetch_api`), the request payload builders of the
Stock Management / Price History / Projections screens, and the chart
data pipeline (DataFrame construction, date parsing, sorting).

JSON values are modelled by an inductive `Json` type; numeric JSON
values are modelled at integer precision (no claim under scrutiny
depends on fractional values).  Python-level operations used by the
handlers (`in`, subscripting, `dict.get`, truthiness, iteration,
`str()`) are modelled faithfully, with exceptions represented by
`Except String`: a `.error` value is an exception propagating out of
the handler, carrying the Python `str(e)` of the exception.
-/

namespace StockApp

/-- A JSON value as decoded by `response.json()`. -/
inductive Json where
  | null
  | bool (b : Bool)
  | num (n : Int)
  | str (s : String)
  | arr (elems : List Json)
  | obj (fields : List (String × Json))

mutual

/-- Boolean equality on JSON values. -/
def beqJson : Json → Json → Bool
  | .null, .null => true
  | .bool a, .bool b => a == b
  | .num a, .num b => a == b
  | .str a, .str b => a == b
  | .arr xs, .arr ys => beqJsonList xs ys
  | .obj fs, .obj gs => beqJsonFields fs gs
  | _, _ => false

/-- Boolean equality on JSON arrays. -/
def beqJsonList : List Json → List Json → Bool
  | [], [] => true
  | x :: xs, y :: ys => beqJson x y && beqJsonList xs ys
  | _, _ => false

/-- Boolean equality on JSON object field lists. -/
def beqJsonFields : List (String × Json) → List (String × Json) → Bool
  | [], [] => true
  | (k, v) :: xs, (l, w) :: ys => k == l && beqJson v w && beqJsonFields xs ys
  | _, _ => false

end

mutual

theorem beqJson_true_iff : ∀ a b : Json, beqJson a b = true ↔ a = b
  | .null, b => by cases b <;> simp [beqJson]
  | .bool a, b => by cases b <;> simp [beqJson]
  | .num a, b => by cases b <;> simp [beqJson]
  | .str a, b => by cases b <;> simp [beqJson]
  | .arr xs, .arr ys => by
      rw [show beqJson (.arr xs) (.arr ys) = beqJsonList xs ys from rfl,
        beqJsonList_true_iff xs ys]
      simp
  | .arr xs, .null => by simp [beqJson]
  | .arr xs, .bool b => by simp [beqJson]
  | .arr xs, .num n => by simp [beqJson]
  | .arr xs, .str s => by simp [beqJson]
  | .arr xs, .obj gs => by simp [beqJson]
  | .obj fs, .obj gs => by
      rw [show beqJson (.obj fs) (.obj gs) = beqJsonFields fs gs from rfl,
        beqJsonFields_true_iff fs gs]
      simp
  | .obj fs, .null => by simp [beqJson]
  | .obj fs, .bool b => by simp [beqJson]
  | .obj fs, .num n => by simp [beqJson]
  | .obj fs, .str s => by simp [beqJson]
  | .obj fs, .arr ys => by simp [beqJson]

theorem beqJsonList_true_iff : ∀ xs ys : List Json, beqJsonList xs ys = true ↔ xs = ys
  | [], [] => by simp [beqJsonList]
  | [], _ :: _ => by simp [beqJsonList]
  | _ :: _, [] => by simp [beqJsonList]
  | x :: xs, y :: ys => by
      rw [show beqJsonList (x :: xs) (y :: ys) = (beqJson x y && beqJsonList xs ys) from rfl]
      simp [beqJson_true_iff x y, beqJsonList_true_iff xs ys]

theorem beqJsonFields_true_iff :
    ∀ xs ys : List (String × Json), beqJsonFields xs ys = true ↔ xs = ys
  | [], [] => by simp [beqJsonFields]
  | [], _ :: _ => by simp [beqJsonFields]
  | _ :: _, [] => by simp [beqJsonFields]
  | (k, v) :: xs, (l, w) :: ys => by
      rw [show beqJsonFields ((k, v) :: xs) ((l, w) :: ys)
            = (k == l && (beqJson v w && beqJsonFields xs ys)) from by
          rw [show beqJsonFields ((k, v) :: xs) ((l, w) :: ys)
                = (k == l && beqJson v w && beqJsonFields xs ys) from rfl]
          rw [Bool.and_assoc]]
      simp [beqJson_true_iff v w, beqJsonFields_true_iff xs ys, Prod.ext_iff, and_assoc]

end

instance : DecidableEq Json := fun a b => decidable_of_iff _ (beqJson_true_iff a b)

instance {ε α : Type} [DecidableEq ε] [DecidableEq α] : DecidableEq (Except ε α) :=
  fun x y =>
    match x, y with
    | .error a, .error b =>
        if h : a = b then .isTrue (by rw [h]) else .isFalse (fun hh => h (Except.error.inj hh))
    | .ok a, .ok b =>
        if h : a = b then .isTrue (by rw [h]) else .isFalse (fun hh => h (Except.ok.inj hh))
    | .error _, .ok _ => .isFalse (fun hh => Except.noConfusion hh)
    | .ok _, .error _ => .isFalse (fun hh => Except.noConfusion hh)

/-- First value bound to a key in a Python dict (keys are unique there). -/
def lookupField (kvs : List (String × Json)) (k : String) : Option Json :=
  (kvs.find? (fun p => p.1 = k)).map (fun p => p.2)

/-- Key lookup on a JSON object; `none` on anything else or a missing key. -/
def jsonLookup (j : Json) (k : String) : Option Json :=
  match j with
  | .obj kvs => lookupField kvs k
  | _ => none

/-- The Python type name of a value, as it appears in exception messages. -/
def pyTypeName : Json → String
  | .null => "NoneType"
  | .bool _ => "bool"
  | .num _ => "int"
  | .str _ => "str"
  | .arr _ => "list"
  | .obj _ => "dict"

/-- Python truthiness (`if x:`). -/
def pyTruthy : Json → Bool
  | .null => false
  | .bool b => b
  | .num n => decide (n ≠ 0)
  | .str s => decide (s ≠ "")
  | .arr xs => !xs.isEmpty
  | .obj kvs => !kvs.isEmpty

/-- Decimal digits of a natural number; the first argument is fuel that
strictly decreases, chosen large enough by the callers below. -/
def natDigitsAux : Nat → Nat → List Char
  | 0, _ => []
  | fuel + 1, n =>
    if n < 10 then [Char.ofNat (48 + n)]
    else natDigitsAux fuel (n / 10) ++ [Char.ofNat (48 + n % 10)]

/-- Decimal rendering of an integer, as Python `str()` renders ints. -/
def intRepr (i : Int) : String :=
  match i with
  | .ofNat n => ⟨natDigitsAux (n + 1) n⟩
  | .negSucc m => ⟨'-' :: natDigitsAux (m + 2) (m + 1)⟩

/-- Python `repr()` of a JSON value (containers render their elements with `repr`). -/
def pyRepr : Json → String
  | .null => "None"
  | .bool b => if b then "True" else "False"
  | .num n => intRepr n
  | .str s => "'" ++ s ++ "'"
  | .arr xs => "[" ++ String.intercalate ", " (xs.attach.map (fun e => pyRepr e.1)) ++ "]"
  | .obj kvs =>
      "\x7b" ++
        String.intercalate ", "
          (kvs.attach.map (fun p => "'" ++ p.1.1 ++ "': " ++ pyRepr p.1.2)) ++
      "\x7d"
decreasing_by
  · have h := List.sizeOf_lt_of_mem e.2
    simp only [Json.arr.sizeOf_spec]
    omega
  · have h := List.sizeOf_lt_of_mem p.2
    have h2 : sizeOf p.1.2 < sizeOf p.1 := by
      obtain ⟨⟨a, b⟩, hm⟩ := p
      show sizeOf b < sizeOf (a, b)
      have hs := Prod.mk.sizeOf_spec a b
      omega
    simp only [Json.obj.sizeOf_spec]
    omega

/-- Python `str()` of a JSON value, as interpolated by f-strings. -/
def pyStr : Json → String
  | .str s => s
  | .null => "None"
  | .bool b => if b then "True" else "False"
  | .num n => intRepr n
  | j => pyRepr j

/-- Whether `needle` occurs as a contiguous sublist of `hay`. -/
def subSeqAt (needle : List Char) : List Char → Bool
  | [] => decide (needle = [])
  | c :: cs => needle.isPrefixOf (c :: cs) || subSeqAt needle cs

/-- Python membership test `needle in x` for a string needle: key test on
dicts, element equality on lists, substring test on strings, and a
`TypeError` on values that are not iterable. -/
def pyIn (needle : String) (x : Json) : Except String Bool :=
  match x with
  | .obj kvs => .ok (kvs.any (fun p => p.1 = needle))
  | .arr xs => .ok (xs.any (fun e => e = Json.str needle))
  | .str s => .ok (subSeqAt needle.data s.data)
  | _ => .error ("argument of type '" ++ pyTypeName x ++ "' is not iterable")

/-- Python subscripting `x[k]` with a string key: dict lookup (KeyError when
missing), `TypeError` on every other type. -/
def pySubscript (x : Json) (k : String) : Except String Json :=
  match x with
  | .obj kvs =>
      match lookupField kvs k with
      | some v => .ok v
      | none => .error ("KeyError: '" ++ k ++ "'")
  | .str _ => .error "string indices must be integers"
  | .arr _ => .error "list indices must be integers or slices, not str"
  | _ => .error ("'" ++ pyTypeName x ++ "' object is not subscriptable")

/-- Python `x.get(k, default)`: total on dicts, `AttributeError` elsewhere. -/
def pyDictGet (x : Json) (k : String) (dflt : Json) : Except String Json :=
  match x with
  | .obj kvs => .ok ((lookupField kvs k).getD dflt)
  | _ => .error ("'" ++ pyTypeName x ++ "' object has no attribute 'get'")

/-- Python iteration `for e in x`: list elements, dict keys, string characters,
`TypeError` on anything else. -/
def pyIter (x : Json) : Except String (List Json) :=
  match x with
  | .arr xs => .ok xs
  | .obj kvs => .ok (kvs.map (fun p => Json.str p.1))
  | .str s => .ok (s.data.map (fun c => Json.str ⟨[c]⟩))
  | _ => .error ("'" ++ pyTypeName x ++ "' object is not iterable")

/-- Python `str.upper()` (the symbols in this app are ASCII tickers). -/
def pyUpper (s : String) : String := ⟨s.data.map Char.toUpper⟩

/-! ## The API Gateway (`fetch_api`, app.py lines 23-47) -/

/-- What happened when `requests` issued the HTTP call: a response arrived
(whose body decodes to JSON or raises, carrying the exception's `str`),
the connection failed, or some other exception was raised. -/
inductive RequestOutcome where
  | response (status : Nat) (jsonBody : Except String Json)
  | connectionError
  | otherException (msg : String)
  deriving DecidableEq

/-- Fixed message of the `requests.exceptions.ConnectionError` branch. -/
def connectionErrorMsg : String :=
  "Cannot connect to backend API. Make sure the server is running."

/-- Generic fallback used when an error body has no `detail` field. -/
def genericApiError : String := "API Error"

/-- The `{"success": True}` value returned for a 204 response. -/
def successMarker : Json := .obj [("success", .bool true)]

/-- The `{"error": msg}` shape every failure is normalized to. -/
def errObj (v : Json) : Json := .obj [("error", v)]

/-- Status-code policy of `fetch_api` (app.py lines 38-43), inside the
`try` block: exceptions raised while decoding the body fall through to the
generic `except Exception` handler and surface as their `str`. -/
def handleStatus (status : Nat) (jsonBody : Except String Json) : Json :=
  if status = 200 ∨ status = 201 then
    match jsonBody with
    | .ok j => j
    | .error e => errObj (.str e)
  else if status = 204 then successMarker
  else
    match jsonBody with
    | .ok (.obj kvs) => errObj ((lookupField kvs "detail").getD (.str genericApiError))
    | .ok j => errObj (.str ("'" ++ pyTypeName j ++ "' object has no attribute 'get'"))
    | .error e => errObj (.str e)

/-- The Gateway `fetch_api` (app.py lines 23-47).  The HTTP layer is
abstracted by a `RequestOutcome`; an unknown method short-circuits before
any request is made, so the outcome is irrelevant in that branch. -/
def fetch_api (method : String) (outcome : RequestOutcome) : Json :=
  if method = "GET" ∨ method = "POST" ∨ method = "PUT" ∨ method = "DELETE" then
    match outcome with
    | .response s jb => handleStatus s jb
    | .connectionError => errObj (.str connectionErrorMsg)
    | .otherException e => errObj (.str e)
  else errObj (.str "Invalid method")

/-! ## Requests issued by the screen handlers -/

/-- An HTTP request as assembled by `fetch_api`'s callers: the `data`
argument becomes query params for GET and a JSON body for POST. -/
structure Request where
  method : String
  endpoint : String
  data : Option Json
  deriving DecidableEq

/-- Rendering/feedback primitives a screen handler invokes, in order. -/
inductive Action where
  | header (s : String)
  | subheader (s : String)
  | errorBox (v : Json)
  | infoBox (s : String)
  | warningBox (s : String)
  | successBox (s : String)
  | metric (label : String) (value : Json)
  | plotlyChart (kind : String)
  | dataframe
  deriving DecidableEq

/-- Quick Add (app.py lines 130-142): a non-empty symbol is uppercased into
the POST path; an empty symbol warns and issues no request. -/
def quickAddSubmit (symbol : String) : Option Request × List Action :=
  if symbol ≠ "" then
    (some ⟨"POST", "/stocks/fetch/" ++ pyUpper symbol, none⟩, [])
  else
    (none, [.warningBox "Please enter a stock symbol"])

/-- Python `x or None` on a string: `None` when the string is falsy (empty). -/
def pyOrNone (s : String) : Json :=
  if s = "" then .null else .str s

/-- Manual Add POST body (app.py lines 155-161). -/
def manualAddData (m_symbol m_name m_sector m_industry m_exchange : String) : Json :=
  .obj [("symbol", .str (pyUpper m_symbol)),
        ("name", .str m_name),
        ("sector", pyOrNone m_sector),
        ("industry", pyOrNone m_industry),
        ("exchange", pyOrNone m_exchange)]

/-- Manual Add form submission (app.py lines 153-169): requires truthy
symbol and name, otherwise warns without issuing a request. -/
def manualAddSubmit (m_symbol m_name m_sector m_industry m_exchange : String) :
    Option Request × List Action :=
  if m_symbol ≠ "" ∧ m_name ≠ "" then
    (some ⟨"POST", "/stocks/", some (manualAddData m_symbol m_name m_sector m_industry m_exchange)⟩, [])
  else
    (none, [.warningBox "Symbol and Name are required"])

/-- Fetch Historical Prices POST body (app.py lines 238-241): `symbol` and
`period` always; `start_date`/`end_date` appended when the custom-range
checkbox is on (dates already rendered by `isoformat()`). -/
def fetchPricesData (symbol period : String) (use_dates : Bool) (start_date end_date : String) : Json :=
  .obj ([("symbol", .str symbol), ("period", .str period)] ++
    (if use_dates then [("start_date", .str start_date), ("end_date", .str end_date)] else []))

/-- Fetch Historical Prices request (app.py line 244). -/
def fetchPricesRequest (symbol period : String) (use_dates : Bool) (start_date end_date : String) : Request :=
  ⟨"POST", "/prices/fetch", some (fetchPricesData symbol period use_dates start_date end_date)⟩

/-- The date range a price-ingestion payload asks for. -/
inductive DateRange where
  | preset (period : String)
  | explicitRange (start_date end_date : String)
  deriving DecidableEq

/-- Modelled from the spec: the backend price-ingestion endpoint is not part
of this repository; per the spec, an explicit `start_date`/`end_date` pair in
the payload overrides the `period` preset when the backend selects the date
range to ingest. -/
def effectiveRange (payload : Json) : DateRange :=
  match jsonLookup payload "start_date", jsonLookup payload "end_date" with
  | some (.str s), some (.str e) => .explicitRange s e
  | _, _ =>
      .preset (match jsonLookup payload "period" with
        | some (.str p) => p
        | _ => "")

/-- The stock-list request issued by most screens (`fetch_api("/stocks/")`). -/
def stocksRequest : Request := ⟨"GET", "/stocks/", none⟩

/-- Query params of the Price History price fetch (app.py lines 284-288). -/
def pricesParams (start_date end_date : String) (lim : Int) : Json :=
  .obj [("start_date", .str start_date), ("end_date", .str end_date), ("limit", .num lim)]

/-- The Price History price request (app.py line 290). -/
def pricesRequest (stockId : String) (start_date end_date : String) (lim : Int) : Request :=
  ⟨"GET", "/prices/" ++ stockId, some (pricesParams start_date end_date lim)⟩

/-- The Price History stats request (app.py line 308): no `data` argument at
all, hence no query params. -/
def statsRequest (stockId : String) : Request :=
  ⟨"GET", "/prices/" ++ stockId ++ "/stats", none⟩

/-! ## The Chart Data Pipeline

`df = pd.DataFrame(rows); df['date'] = pd.to_datetime(df['date']);
df = df.sort_values('date')` — rows are keyed by the parsed date value
(the `date` column is overwritten by the parsed result), then sorted
non-decreasing by that key. -/

/-- Split a character list on a separator character. -/
def splitOnChar (sep : Char) : List Char → List (List Char)
  | [] => [[]]
  | c :: cs =>
      match splitOnChar sep cs with
      | [] => [[]]
      | g :: gs => if c = sep then [] :: g :: gs else (c :: g) :: gs

/-- Accumulate decimal digits; `none` on a non-digit. -/
def decCharsAux : List Char → Nat → Option Nat
  | [], acc => some acc
  | c :: cs, acc =>
      if c.isDigit then decCharsAux cs (acc * 10 + (c.toNat - 48)) else none

/-- Parse a non-empty all-digit character list as a natural number. -/
def decCharsToNat? : List Char → Option Nat
  | [] => none
  | c :: cs => decCharsAux (c :: cs) 0

/-- Parse the `YYYY-MM-DD` prefix of an ISO date into an order-preserving key. -/
def parseIsoDate (cs : List Char) : Option Nat :=
  match splitOnChar '-' cs with
  | [y, m, d] =>
      match decCharsToNat? y, decCharsToNat? m, decCharsToNat? d with
      | some yn, some mn, some dn => some (yn * 10000 + mn * 100 + dn)
      | _, _, _ => none
  | _ => none

/-- Seconds-of-day of an `HH:MM:SS` or `HH:MM` character list (0 otherwise). -/
def timeKeyChars (cs : List Char) : Nat :=
  match splitOnChar ':' cs with
  | [h, m, s] =>
      ((decCharsToNat? h).getD 0) * 3600 + ((decCharsToNat? m).getD 0) * 60 +
        ((decCharsToNat? s).getD 0)
  | [h, m] => ((decCharsToNat? h).getD 0) * 3600 + ((decCharsToNat? m).getD 0) * 60
  | _ => 0

/-- `pd.to_datetime` on one cell of the `date` column: the backend serves ISO
date strings (spec §3), parsed to a chronologically ordered key; anything
unparseable raises. -/
def pdToDatetime (v : Json) : Except String Nat :=
  match v with
  | .str s =>
      match parseIsoDate (s.data.take 10) with
      | some d => .ok (d * 100000 + timeKeyChars ((s.data.drop 11).take 8))
      | none => .error ("Unknown datetime string format, unable to parse: " ++ s)
  | _ => .error "pd.to_datetime: unsupported value type in date column"

/-- `pd.DataFrame(rows)` followed by `df['date'] = pd.to_datetime(df['date'])`:
each row is keyed by its parsed date (a missing or unparseable `date` raises). -/
def dataFrameKeyed : List Json → Except String (List (Nat × Json))
  | [] => .ok []
  | r :: rs =>
      match pySubscript r "date" with
      | .error e => .error e
      | .ok d =>
          match pdToDatetime d with
          | .error e => .error e
          | .ok k =>
              match dataFrameKeyed rs with
              | .error e => .error e
              | .ok ks => .ok ((k, r) :: ks)

/-- `df.sort_values('date')`: a comparison sort on the parsed date key. -/
def sort_values (df : List (Nat × Json)) : List (Nat × Json) :=
  df.insertionSort (fun a b => a.1 ≤ b.1)

/-- The Chart Data Pipeline applied by `show_price_history` (app.py lines
300-303) and to the projection chart's historical rows (lines 423-426). -/
def chartPipeline (rows : List Json) : Except String (List (Nat × Json)) :=
  match dataFrameKeyed rows with
  | .error e => .error e
  | .ok kd => .ok (sort_values kd)

/-! ## The Price History screen handler (`show_price_history`, app.py 252-356) -/

/-- Label shown in the stock selectbox: `f"{s['symbol']} - {s['name']}"`. -/
def stockLabel (s : Json) : Except String String :=
  match pySubscript s "symbol" with
  | .error e => .error e
  | .ok sym =>
      match pySubscript s "name" with
      | .error e => .error e
      | .ok nm => .ok (pyStr sym ++ " - " ++ pyStr nm)

/-- Python dict insertion: overwrite an existing key in place, else append. -/
def dictInsert (d : List (String × Json)) (k : String) (v : Json) : List (String × Json) :=
  if d.any (fun p => p.1 = k) then
    d.map (fun p => if p.1 = k then (k, v) else p)
  else d ++ [(k, v)]

/-- Label every stock, building the `stock_options` dict-comprehension. -/
def labelStocks : List Json → Except String (List (String × Json))
  | [] => .ok []
  | s :: ss =>
      match stockLabel s with
      | .error e => .error e
      | .ok lb =>
          match labelStocks ss with
          | .error e => .error e
          | .ok rest => .ok ((lb, s) :: rest)

/-- The `stock_options` dict (app.py line 267). -/
def stockOptions (stocks : Json) : Except String (List (String × Json)) :=
  match pyIter stocks with
  | .error e => .error e
  | .ok elems =>
      match labelStocks elems with
      | .error e => .error e
      | .ok pairs => .ok (pairs.foldl (fun d p => dictInsert d p.1 p.2) [])

/-- The stock bound to the default selectbox choice (first option key). -/
def selectedStock (stocks : Json) : Except String Json :=
  match stockOptions stocks with
  | .error e => .error e
  | .ok opts =>
      match opts.head? with
      | some p => .ok p.2
      | none => .error "selectbox: empty options"

/-- The four statistics metrics (app.py lines 310-320), reached only when the
stats result passed the error-membership test. -/
def statsMetrics (stats : Json) : Except String (List Action) :=
  match pyDictGet stats "min_price" (.num 0) with
  | .error e => .error e
  | .ok mn =>
      match pyDictGet stats "max_price" (.num 0) with
      | .error e => .error e
      | .ok mx =>
          match pyDictGet stats "avg_price" (.num 0) with
          | .error e => .error e
          | .ok av =>
              match pyDictGet stats "total_records" (.num 0) with
              | .error e => .error e
              | .ok tot =>
                  .ok [.metric "Min Price" mn, .metric "Max Price" mx,
                       .metric "Avg Price" av, .metric "Total Records" tot]

/-- Reading a pandas column: present iff some row carries the key
(absent keys in other rows become NaN); wholly absent raises `KeyError`. -/
def requireColumn (df : List (Nat × Json)) (c : String) : Except String Unit :=
  if df.any (fun r =>
      match r.2 with
      | .obj kvs => kvs.any (fun p => p.1 = c)
      | _ => false) then
    .ok ()
  else .error ("KeyError: '" ++ c ++ "'")

/-- The price chart (app.py lines 325-345): candlestick needs the four OHLC
columns, the line chart needs `close_price`. -/
def priceCharts (df : List (Nat × Json)) (chart_type : String) : Except String (List Action) :=
  if chart_type = "Candlestick" then
    match requireColumn df "open_price" with
    | .error e => .error e
    | .ok _ =>
        match requireColumn df "high_price" with
        | .error e => .error e
        | .ok _ =>
            match requireColumn df "low_price" with
            | .error e => .error e
            | .ok _ =>
                match requireColumn df "close_price" with
                | .error e => .error e
                | .ok _ => .ok [.plotlyChart "candlestick"]
  else
    match requireColumn df "close_price" with
    | .error e => .error e
    | .ok _ => .ok [.plotlyChart "line"]

/-- Chart section of the Price History screen (app.py lines 322-356),
assembled after the statistics block. -/
def priceHistoryCharts (df : List (Nat × Json)) (chart_type : String)
    (statsActs : List Action) : Except String (List Action) :=
  match priceCharts df chart_type with
  | .error e => .error e
  | .ok cs =>
      match requireColumn df "volume" with
      | .error e => .error e
      | .ok _ =>
          .ok ([Action.header "Price History", Action.subheader "Statistics"] ++ statsActs ++
            [Action.subheader "Price Chart"] ++ cs ++
            [Action.subheader "Trading Volume", Action.plotlyChart "volume-bar", Action.dataframe])

/-- Tail of `show_price_history` from the stats fetch on (app.py lines
305-356): a stats error result merely skips the metrics block. -/
def priceHistoryTail (backend : Request → Json) (sid : Json) (df : List (Nat × Json))
    (chart_type : String) : Except String (List Action) :=
  let stats := backend (statsRequest (pyStr sid))
  match pyIn "error" stats with
  | .error e => .error e
  | .ok true => priceHistoryCharts df chart_type []
  | .ok false =>
      match statsMetrics stats with
      | .error e => .error e
      | .ok ms => priceHistoryCharts df chart_type ms

/-- The Price History screen handler (app.py lines 252-356).  `backend`
abstracts the Gateway: the normalized `fetch_api` result for each request. -/
def show_price_history (backend : Request → Json) (start_date end_date : String)
    (lim : Int) (chart_type : String) : Except String (List Action) :=
  let stocks := backend stocksRequest
  match pyIn "error" stocks with
  | .error e => .error e
  | .ok true =>
      match pySubscript stocks "error" with
      | .error e => .error e
      | .ok v => .ok [.header "Price History", .errorBox v]
  | .ok false =>
      if pyTruthy stocks = false then
        .ok [.header "Price History", .infoBox "No stocks found. Add some stocks first!"]
      else
        match selectedStock stocks with
        | .error e => .error e
        | .ok stock =>
            match pySubscript stock "id" with
            | .error e => .error e
            | .ok sid =>
                let prices := backend (pricesRequest (pyStr sid) start_date end_date lim)
                match pyIn "error" prices with
                | .error e => .error e
                | .ok true =>
                    match pySubscript prices "error" with
                    | .error e => .error e
                    | .ok v => .ok [.header "Price History", .errorBox v]
                | .ok false =>
                    if pyTruthy prices = false then
                      .ok [.header "Price History",
                        .warningBox "No price data found. Fetch historical prices from Stock Management."]
                    else
                      match pyIter prices with
                      | .error e => .error e
                      | .ok rows =>
                          match chartPipeline rows with
                          | .error e => .error e
                          | .ok df => priceHistoryTail backend sid df chart_type

/-! ## The Moving Average tab (`show_projections`, app.py lines 458-494) -/

/-- Rendering of a moving-average result: error box on a result passing the
error-membership test, a chart for a truthy list, the no-data warning
otherwise.  The MA DataFrame is date-parsed but not sorted (faithful to the
source, which calls no `sort_values` here). -/
def maTabRender (ma_data : Json) : Except String (List Action) :=
  match pyIn "error" ma_data with
  | .error e => .error e
  | .ok true =>
      match pySubscript ma_data "error" with
      | .error e => .error e
      | .ok v => .ok [.errorBox v]
  | .ok false =>
      match ma_data with
      | .arr (x :: xs) =>
          match dataFrameKeyed (x :: xs) with
          | .error e => .error e
          | .ok df =>
              match requireColumn df "close_price" with
              | .error e => .error e
              | .ok _ =>
                  match requireColumn df "moving_average" with
                  | .error e => .error e
                  | .ok _ => .ok [.plotlyChart "moving-average"]
      | _ => .ok [.warningBox "No data available for moving average calculation"]

/-! ## Concrete backends and rows used to exercise the handlers -/

/-- A price row as the backend serves it (spec §3). -/
def demoPriceRow (d : String) (p : Int) : Json :=
  .obj [("date", .str d), ("open_price", .num p), ("high_price", .num (p + 1)),
        ("low_price", .num (p - 1)), ("close_price", .num p), ("volume", .num 1000)]

/-- A stock record as the backend serves it (spec §3). -/
def demoStock : Json :=
  .obj [("id", .num 1), ("symbol", .str "AAPL"), ("name", .str "Apple Inc."),
        ("is_active", .bool true)]

/-- A backend whose stock list and prices succeed but whose stats endpoint
returns a Gateway error value. -/
def statsFailBackend (r : Request) : Json :=
  if r.endpoint = "/stocks/" then .arr [demoStock]
  else if r.endpoint = "/prices/1/stats" then errObj (.str "stats backend failure")
  else if r.endpoint = "/prices/1" then
    .arr [demoPriceRow "2024-01-02" 10, demoPriceRow "2024-01-03" 11]
  else .null

/-- A backend that is unreachable: every call returns the Gateway's
connectivity error value. -/
def downBackend : Request → Json :=
  fun _ => errObj (.str connectionErrorMsg)

/-! ## Claim theorems -/

/-- Helper: for a status other than 200/201/204 the Gateway's status policy
produces an error object, whatever the body is. -/
theorem handleStatus_error_shape (s : Nat) (jb : Except String Json)
    (h1 : s ≠ 200) (h2 : s ≠ 201) (h3 : s ≠ 204) :
    ∃ v, handleStatus s jb = errObj v := by
  have hcond : ¬(s = 200 ∨ s = 201) := by rintro (rfl | rfl) <;> simp_all
  unfold handleStatus
  rw [if_neg hcond, if_neg h3]
  rcases jb with e | j
  · exact ⟨.str e, rfl⟩
  · cases j
    all_goals exact ⟨_, rfl⟩

/-- C1: for every backend response the Gateway maps the status code as:
200/201 return the decoded JSON body as the result; 204 returns the fixed
empty-success marker (no body consulted); any other status returns an error
value carrying the body's `detail` field, falling back to the generic
"API Error" message when the decoded body has no such field. -/
theorem fetch_api_status_mapping (m : String) (s : Nat) (j : Json)
    (jb : Except String Json) (kvs : List (String × Json)) (v : Json)
    (hm : m = "GET" ∨ m = "POST" ∨ m = "PUT" ∨ m = "DELETE") :
    ((s = 200 ∨ s = 201) → fetch_api m (.response s (.ok j)) = j)
    ∧ fetch_api m (.response 204 jb) = successMarker
    ∧ (s ≠ 200 → s ≠ 201 → s ≠ 204 → lookupField kvs "detail" = some v →
        fetch_api m (.response s (.ok (.obj kvs))) = errObj v)
    ∧ (s ≠ 200 → s ≠ 201 → s ≠ 204 → lookupField kvs "detail" = none →
        fetch_api m (.response s (.ok (.obj kvs))) = errObj (.str genericApiError)) := by
  refine ⟨?_, ?_, ?_, ?_⟩
  · intro hs
    rcases hm with rfl | rfl | rfl | rfl <;> rcases hs with rfl | rfl <;>
      simp [fetch_api, handleStatus]
  · rcases hm with rfl | rfl | rfl | rfl <;> simp [fetch_api, handleStatus]
  · intro h1 h2 h3 hd
    rcases hm with rfl | rfl | rfl | rfl <;>
      simp [fetch_api, handleStatus, h1, h2, h3, hd]
  · intro h1 h2 h3 hd
    rcases hm with rfl | rfl | rfl | rfl <;>
      simp [fetch_api, handleStatus, h1, h2, h3, hd]

/-- Witness for C1 at concrete inputs: a 200 body is passed through, 204
yields the marker, a 404 with a `detail` field reports it, and a 500 dict
body without `detail` falls back to the generic message. -/
theorem fetch_api_status_mapping_witness :
    fetch_api "GET" (.response 200 (.ok (.arr [.num 1]))) = .arr [.num 1]
    ∧ fetch_api "DELETE" (.response 204 (.error "no body")) = successMarker
    ∧ fetch_api "GET" (.response 404 (.ok (.obj [("detail", .str "Stock not found")])))
        = errObj (.str "Stock not found")
    ∧ fetch_api "POST" (.response 500 (.ok (.obj [("ok", .bool false)])))
        = errObj (.str genericApiError) := by
  have h1 := fetch_api_status_mapping "GET" 200 (.arr [.num 1]) (.error "no body")
    [] .null (Or.inl rfl)
  have h2 := fetch_api_status_mapping "DELETE" 204 .null (.error "no body")
    [] .null (Or.inr (Or.inr (Or.inr rfl)))
  have h3 := fetch_api_status_mapping "GET" 404 .null (.error "no body")
    [("detail", .str "Stock not found")] (.str "Stock not found") (Or.inl rfl)
  have h4 := fetch_api_status_mapping "POST" 500 .null (.error "no body")
    [("ok", .bool false)] .null (Or.inr (Or.inl rfl))
  exact ⟨h1.1 (Or.inl rfl), h2.2.1,
    h3.2.2.1 (by decide) (by decide) (by decide) (by decide),
    h4.2.2.2 (by decide) (by decide) (by decide) (by decide)⟩

/-- C2: the Gateway never lets an exception escape: a connectivity failure
yields an error value with the fixed cannot-connect message (distinct from
the generic application-error fallback), any other exception yields an error
value carrying its string representation, every non-200/201/204 response
yields an error value, and in general every call returns either a decoded
200/201 body, the 204 marker, or an error object. -/
theorem fetch_api_never_raises (m e : String) (s : Nat) (jb : Except String Json)
    (o : RequestOutcome) (hm : m = "GET" ∨ m = "POST" ∨ m = "PUT" ∨ m = "DELETE") :
    fetch_api m .connectionError = errObj (.str connectionErrorMsg)
    ∧ ("Cannot connect to backend API".data.isPrefixOf connectionErrorMsg.data = true)
    ∧ connectionErrorMsg ≠ genericApiError
    ∧ fetch_api m (.otherException e) = errObj (.str e)
    ∧ (s ≠ 200 → s ≠ 201 → s ≠ 204 → ∃ v, fetch_api m (.response s jb) = errObj v)
    ∧ ((∃ v, fetch_api m o = errObj v) ∨ fetch_api m o = successMarker
        ∨ ∃ s' j, o = .response s' (.ok j) ∧ (s' = 200 ∨ s' = 201) ∧ fetch_api m o = j) := by
  have hmeq : (m = "GET" ∨ m = "POST" ∨ m = "PUT" ∨ m = "DELETE") = True :=
    eq_true hm
  refine ⟨by simp [fetch_api, hmeq], by decide, by decide, by simp [fetch_api, hmeq], ?_, ?_⟩
  · intro h1 h2 h3
    obtain ⟨v, hv⟩ := handleStatus_error_shape s jb h1 h2 h3
    exact ⟨v, by simp [fetch_api, hmeq, hv]⟩
  · rcases o with ⟨s', jb'⟩ | _ | e'
    · by_cases h200 : s' = 200 ∨ s' = 201
      · rcases jb' with e' | j'
        · left
          exact ⟨.str e', by rcases h200 with rfl | rfl <;> simp [fetch_api, hmeq, handleStatus]⟩
        · right; right
          exact ⟨s', j', rfl, h200,
            by rcases h200 with rfl | rfl <;> simp [fetch_api, hmeq, handleStatus]⟩
      · push_neg at h200
        by_cases h204 : s' = 204
        · subst h204
          right; left
          simp [fetch_api, hmeq, handleStatus]
        · left
          obtain ⟨v, hv⟩ := handleStatus_error_shape s' jb' h200.1 h200.2 h204
          exact ⟨v, by simp [fetch_api, hmeq, hv]⟩
    · left; exact ⟨.str connectionErrorMsg, by simp [fetch_api, hmeq]⟩
    · left; exact ⟨.str e', by simp [fetch_api, hmeq]⟩

/-- Witness for C2 at concrete inputs. -/
theorem fetch_api_never_raises_witness :
    fetch_api "GET" .connectionError = errObj (.str connectionErrorMsg)
    ∧ fetch_api "GET" (.otherException "Expecting value: line 1 column 1 (char 0)")
        = errObj (.str "Expecting value: line 1 column 1 (char 0)")
    ∧ (∃ v, fetch_api "GET" (.response 503 (.error "invalid json")) = errObj v) := by
  have h := fetch_api_never_raises "GET" "Expecting value: line 1 column 1 (char 0)"
    503 (.error "invalid json") .connectionError (Or.inl rfl)
  exact ⟨h.1, h.2.2.2.1, h.2.2.2.2.1 (by decide) (by decide) (by decide)⟩

/-- C4: with "Use custom date range" checked the ingestion payload carries
`start_date`/`end_date` (absent otherwise), the `period` preset stays in the
payload but its effect is overridden — under the spec-modelled backend
interpretation the effective range is the explicit pair exactly when the
checkbox is on, and the preset only otherwise. -/
theorem fetch_prices_custom_range (symbol period start_date end_date : String)
    (use_dates : Bool) :
    jsonLookup (fetchPricesData symbol period use_dates start_date end_date) "start_date"
      = (if use_dates then some (.str start_date) else none)
    ∧ jsonLookup (fetchPricesData symbol period use_dates start_date end_date) "end_date"
      = (if use_dates then some (.str end_date) else none)
    ∧ jsonLookup (fetchPricesData symbol period use_dates start_date end_date) "period"
      = some (.str period)
    ∧ effectiveRange (fetchPricesData symbol period use_dates start_date end_date)
      = (if use_dates then .explicitRange start_date end_date else .preset period)
    ∧ (fetchPricesRequest symbol period use_dates start_date end_date).data
      = some (fetchPricesData symbol period use_dates start_date end_date) := by
  cases use_dates <;>
    simp [fetchPricesData, fetchPricesRequest, jsonLookup, lookupField, effectiveRange]

/-- C6: the Price History stats request carries no query parameters at all —
in particular no date-range or limit restriction — while the price request
of the same screen carries the user's window; so stats reflect full history. -/
theorem stats_request_full_history (stockId start_date end_date : String) (lim : Int) :
    (statsRequest stockId).data = none
    ∧ (statsRequest stockId).method = "GET"
    ∧ (statsRequest stockId).endpoint = "/prices/" ++ stockId ++ "/stats"
    ∧ (pricesRequest stockId start_date end_date lim).data
      = some (.obj [("start_date", .str start_date), ("end_date", .str end_date),
          ("limit", .num lim)]) :=
  ⟨rfl, rfl, rfl, rfl⟩

/-- Helper: `x or None` never produces an empty string. -/
theorem pyOrNone_ne_empty_str (s : String) : pyOrNone s ≠ .str "" := by
  unfold pyOrNone
  split <;> simp_all

/-- C7: each optional Manual Add field left blank is sent as the explicit
absence marker `null`, never as an empty string; a non-blank value is sent
as given. -/
theorem manual_add_optional_absence (m_symbol m_name m_sector m_industry m_exchange : String) :
    jsonLookup (manualAddData m_symbol m_name m_sector m_industry m_exchange) "sector"
      = some (pyOrNone m_sector)
    ∧ jsonLookup (manualAddData m_symbol m_name m_sector m_industry m_exchange) "industry"
      = some (pyOrNone m_industry)
    ∧ jsonLookup (manualAddData m_symbol m_name m_sector m_industry m_exchange) "exchange"
      = some (pyOrNone m_exchange)
    ∧ (m_sector = "" → pyOrNone m_sector = .null)
    ∧ (m_sector ≠ "" → pyOrNone m_sector = .str m_sector)
    ∧ pyOrNone m_sector ≠ .str ""
    ∧ pyOrNone m_industry ≠ .str ""
    ∧ pyOrNone m_exchange ≠ .str "" := by
  refine ⟨?_, ?_, ?_, fun h => by simp [pyOrNone, h], fun h => by simp [pyOrNone, h],
    pyOrNone_ne_empty_str _, pyOrNone_ne_empty_str _, pyOrNone_ne_empty_str _⟩ <;>
    simp [manualAddData, jsonLookup, lookupField]

/-- Witness for C7: a blank sector is sent as `null` while a non-blank
industry is sent as given, never an empty string. -/
theorem manual_add_optional_absence_witness :
    jsonLookup (manualAddData "aapl" "Apple Inc." "" "Technology" "") "sector" = some .null
    ∧ jsonLookup (manualAddData "aapl" "Apple Inc." "" "Technology" "") "industry"
      = some (.str "Technology")
    ∧ jsonLookup (manualAddData "aapl" "Apple Inc." "" "Technology" "") "sector"
      ≠ some (.str "") := by
  have h := manual_add_optional_absence "aapl" "Apple Inc." "" "Technology" ""
  refine ⟨by rw [h.1]; decide, by rw [h.2.1]; decide, by rw [h.1]; decide⟩

/-- C8: Quick Add uppercases a non-empty symbol into the POST path (no body),
and an empty symbol produces only a warning, with no request issued. -/
theorem quick_add_uppercase_and_guard (symbol : String) :
    (symbol ≠ "" → quickAddSubmit symbol
      = (some ⟨"POST", "/stocks/fetch/" ++ pyUpper symbol, none⟩, []))
    ∧ quickAddSubmit "" = (none, [.warningBox "Please enter a stock symbol"])
    ∧ pyUpper "aapl" = "AAPL" := by
  exact ⟨fun h => by simp [quickAddSubmit, h], by decide, by decide⟩

/-- Witness for C8: input "aapl" sends "AAPL" in the request path. -/
theorem quick_add_uppercase_and_guard_witness :
    quickAddSubmit "aapl" = (some ⟨"POST", "/stocks/fetch/AAPL", none⟩, []) := by
  have h := (quick_add_uppercase_and_guard "aapl").1 (by decide)
  rw [h]
  decide

/-- C10: Manual Add also uppercases the symbol before it is sent: the POST
body's `symbol` field is the uppercased user input. -/
theorem manual_add_symbol_uppercased (m_symbol m_name m_sector m_industry m_exchange : String) :
    jsonLookup (manualAddData m_symbol m_name m_sector m_industry m_exchange) "symbol"
      = some (.str (pyUpper m_symbol))
    ∧ (m_symbol ≠ "" → m_name ≠ "" →
        (manualAddSubmit m_symbol m_name m_sector m_industry m_exchange).1
          = some ⟨"POST", "/stocks/",
              some (manualAddData m_symbol m_name m_sector m_industry m_exchange)⟩) := by
  exact ⟨by simp [manualAddData, jsonLookup, lookupField],
    fun h1 h2 => by simp [manualAddSubmit, h1, h2]⟩

/-- Witness for C10: manual input "aapl" is sent as symbol "AAPL". -/
theorem manual_add_symbol_uppercased_witness :
    jsonLookup (manualAddData "aapl" "Apple Inc." "" "" "") "symbol" = some (.str "AAPL")
    ∧ (manualAddSubmit "aapl" "Apple Inc." "" "" "").1
      = some ⟨"POST", "/stocks/", some (manualAddData "aapl" "Apple Inc." "" "" "")⟩ := by
  have h := manual_add_symbol_uppercased "aapl" "Apple Inc." "" "" ""
  exact ⟨by rw [h.1]; decide, h.2 (by decide) (by decide)⟩

/-- C3: the Chart Data Pipeline's output is sorted non-decreasing by the
parsed date key regardless of input order, and the sort is idempotent: it
fixes its own output, and a pre-sorted frame passes through unchanged. -/
theorem chartPipeline_sorted_and_idempotent (rows : List Json) (df kd : List (Nat × Json)) :
    (chartPipeline rows = .ok df →
      df.Sorted (fun a b => a.1 ≤ b.1) ∧ sort_values df = df)
    ∧ (dataFrameKeyed rows = .ok kd → kd.Sorted (fun a b => a.1 ≤ b.1) →
      chartPipeline rows = .ok kd) := by
  haveI : IsTotal (Nat × Json) (fun a b => a.1 ≤ b.1) := ⟨fun a b => Nat.le_total a.1 b.1⟩
  haveI : IsTrans (Nat × Json) (fun a b => a.1 ≤ b.1) := ⟨fun _ _ _ hab hbc => Nat.le_trans hab hbc⟩
  constructor
  · intro h
    unfold chartPipeline at h
    cases hk : dataFrameKeyed rows with
    | error e => rw [hk] at h; cases h
    | ok kd' =>
        rw [hk] at h
        injection h with h
        subst h
        refine ⟨List.sorted_insertionSort _ _, ?_⟩
        exact List.Sorted.insertionSort_eq (List.sorted_insertionSort _ _)
  · intro hk hs
    unfold chartPipeline
    rw [hk]
    show Except.ok (sort_values kd) = Except.ok kd
    unfold sort_values
    rw [List.Sorted.insertionSort_eq hs]

/-- Witness for C3: out-of-order rows come out sorted by parsed date, the
sort fixes its output, and an already-sorted frame passes through unchanged. -/
theorem chartPipeline_sorted_and_idempotent_witness :
    chartPipeline [demoPriceRow "2024-01-03" 11, demoPriceRow "2024-01-02" 10]
      = .ok [(2024010200000, demoPriceRow "2024-01-02" 10),
             (2024010300000, demoPriceRow "2024-01-03" 11)]
    ∧ List.Sorted (fun (a b : Nat × Json) => a.1 ≤ b.1)
        [(2024010200000, demoPriceRow "2024-01-02" 10),
         (2024010300000, demoPriceRow "2024-01-03" 11)]
    ∧ sort_values [(2024010200000, demoPriceRow "2024-01-02" 10),
         (2024010300000, demoPriceRow "2024-01-03" 11)]
      = [(2024010200000, demoPriceRow "2024-01-02" 10),
         (2024010300000, demoPriceRow "2024-01-03" 11)] := by
  have h := (chartPipeline_sorted_and_idempotent
    [demoPriceRow "2024-01-03" 11, demoPriceRow "2024-01-02" 10]
    [(2024010200000, demoPriceRow "2024-01-02" 10),
     (2024010300000, demoPriceRow "2024-01-03" 11)] []).1 (by decide)
  exact ⟨by decide, h.1, h.2⟩

/-- Helper: a successful keyed lookup makes the Python key-membership test true. -/
theorem lookupField_some_imp_any :
    ∀ (kvs : List (String × Json)) (k : String) (v : Json),
      lookupField kvs k = some v → kvs.any (fun p => p.1 = k) = true
  | [], k, v, h => by simp [lookupField] at h
  | q :: qs, k, v, h => by
      by_cases hq : q.1 = k
      · simp [hq]
      · have h' : lookupField qs k = some v := by
          unfold lookupField at h ⊢
          rwa [List.find?_cons_of_neg _ (by simpa using hq)] at h
        simp [hq, lookupField_some_imp_any qs k v h']

/-- Helper: subscripting an error object at "error" returns its error value. -/
theorem pySubscript_obj_of_lookup (kvs : List (String × Json)) (k : String) (v : Json)
    (h : lookupField kvs k = some v) : pySubscript (.obj kvs) k = .ok v := by
  simp only [pySubscript]
  rw [h]

/-- C5 (amended): on the Price History screen an error value coming from a
primary fetch — the stock list or the price rows — is terminal: the handler
renders exactly the header and the error box and nothing else (no chart, no
further sections).  (The stats fetch is not primary; see the counterexample.) -/
theorem show_price_history_primary_error_terminal (backend : Request → Json)
    (start_date end_date : String) (lim : Int) (chart_type : String) :
    (∀ kvs v, backend stocksRequest = .obj kvs → lookupField kvs "error" = some v →
      show_price_history backend start_date end_date lim chart_type
        = .ok [.header "Price History", .errorBox v])
    ∧ (∀ stock sid kvs v,
        pyIn "error" (backend stocksRequest) = .ok false →
        pyTruthy (backend stocksRequest) = true →
        selectedStock (backend stocksRequest) = .ok stock →
        pySubscript stock "id" = .ok sid →
        backend (pricesRequest (pyStr sid) start_date end_date lim) = .obj kvs →
        lookupField kvs "error" = some v →
        show_price_history backend start_date end_date lim chart_type
          = .ok [.header "Price History", .errorBox v]) := by
  constructor
  · intro kvs v hb hl
    have hin : pyIn "error" (backend stocksRequest) = .ok true := by
      rw [hb]
      simp [pyIn, lookupField_some_imp_any kvs "error" v hl]
    have hsub : pySubscript (backend stocksRequest) "error" = .ok v := by
      rw [hb]
      exact pySubscript_obj_of_lookup kvs "error" v hl
    simp [show_price_history, hin, hsub]
  · intro stock sid kvs v h1 h2 h3 h4 hb hl
    have hin : pyIn "error" (backend (pricesRequest (pyStr sid) start_date end_date lim))
        = .ok true := by
      rw [hb]
      simp [pyIn, lookupField_some_imp_any kvs "error" v hl]
    have hsub : pySubscript (backend (pricesRequest (pyStr sid) start_date end_date lim)) "error"
        = .ok v := by
      rw [hb]
      exact pySubscript_obj_of_lookup kvs "error" v hl
    simp [show_price_history, h1, h2, h3, h4, hin, hsub]

/-- Witness for C5 (amended): when the backend is down, the Price History
screen renders the header and the connectivity error box, and nothing else. -/
theorem show_price_history_primary_error_terminal_witness :
    show_price_history downBackend "2024-01-01" "2024-03-01" 200 "Line"
      = .ok [.header "Price History", .errorBox (.str connectionErrorMsg)] :=
  (show_price_history_primary_error_terminal downBackend "2024-01-01" "2024-03-01" 200 "Line").1
    [("error", .str connectionErrorMsg)] (.str connectionErrorMsg) rfl (by decide)

/-- Counterexample to C5 as stated: a Gateway error value from the stats
fetch is not terminal — the handler keeps going and still renders the price
and volume charts, so not every error result stops the screen render. -/
theorem show_price_history_stats_error_not_terminal :
    statsFailBackend (statsRequest "1") = errObj (.str "stats backend failure")
    ∧ show_price_history statsFailBackend "2024-01-01" "2024-03-01" 200 "Line"
      = .ok [.header "Price History", .subheader "Statistics", .subheader "Price Chart",
          .plotlyChart "line", .subheader "Trading Volume", .plotlyChart "volume-bar",
          .dataframe]
    ∧ Action.plotlyChart "line"
        ∈ [Action.header "Price History", .subheader "Statistics", .subheader "Price Chart",
            .plotlyChart "line", .subheader "Trading Volume", .plotlyChart "volume-bar",
            .dataframe] := by
  refine ⟨by decide, by decide, by decide⟩

/-- Counterexample to C9 as stated: a `null` moving-average result is neither
an error value nor a list, yet the handler does not warn — the membership
test `"error" in ma_data` itself raises `TypeError`, crashing the render. -/
theorem ma_tab_null_crashes :
    maTabRender .null = .error "argument of type 'NoneType' is not iterable"
    ∧ maTabRender .null
      ≠ .ok [.warningBox "No data available for moving average calculation"] := by
  exact ⟨rfl, by decide⟩

/-- C9 (amended): when the error-membership test on the moving-average result
is falsy and the result is an empty list or not a list, the handler warns and
renders no chart; and a chart is rendered only for a non-empty list result. -/
theorem ma_tab_warning_and_chart_guard (ma_data : Json) :
    (pyIn "error" ma_data = .ok false → (∀ xs, ma_data = .arr xs → xs = []) →
      maTabRender ma_data = .ok [.warningBox "No data available for moving average calculation"])
    ∧ (∀ acts, maTabRender ma_data = .ok acts → Action.plotlyChart "moving-average" ∈ acts →
        ∃ x xs, ma_data = .arr (x :: xs)) := by
  constructor
  · intro hin hlist
    cases ma_data with
    | null => exact absurd hin (by simp [pyIn])
    | bool b => exact absurd hin (by simp [pyIn])
    | num n => exact absurd hin (by simp [pyIn])
    | str s => simp [maTabRender, hin]
    | obj kvs => simp [maTabRender, hin]
    | arr xs =>
        have hx := hlist xs rfl
        subst hx
        simp [maTabRender, hin]
  · intro acts hacts hchart
    cases ma_data with
    | null => exact absurd hacts (by simp [maTabRender, pyIn])
    | bool b => exact absurd hacts (by simp [maTabRender, pyIn])
    | num n => exact absurd hacts (by simp [maTabRender, pyIn])
    | str s =>
        cases hb : subSeqAt "error".data s.data with
        | true =>
            have hm : maTabRender (.str s) = .error "string indices must be integers" := by
              simp [maTabRender, pyIn, pySubscript, hb]
            rw [hm] at hacts
            cases hacts
        | false =>
            have hm : maTabRender (.str s)
                = .ok [.warningBox "No data available for moving average calculation"] := by
              simp [maTabRender, pyIn, hb]
            rw [hm] at hacts
            injection hacts with hacts
            subst hacts
            simp at hchart
    | obj kvs =>
        cases hb : kvs.any (fun p => p.1 = "error") with
        | true =>
            cases hf : lookupField kvs "error" with
            | none =>
                have hm : maTabRender (.obj kvs) = .error ("KeyError: '" ++ "error" ++ "'") := by
                  simp [maTabRender, pyIn, pySubscript, hb, hf]
                rw [hm] at hacts
                cases hacts
            | some v =>
                have hm : maTabRender (.obj kvs) = .ok [.errorBox v] := by
                  simp [maTabRender, pyIn, pySubscript, hb, hf]
                rw [hm] at hacts
                injection hacts with hacts
                subst hacts
                simp at hchart
        | false =>
            have hm : maTabRender (.obj kvs)
                = .ok [.warningBox "No data available for moving average calculation"] := by
              simp [maTabRender, pyIn, hb]
            rw [hm] at hacts
            injection hacts with hacts
            subst hacts
            simp at hchart
    | arr xs =>
        cases xs with
        | nil =>
            have hm : maTabRender (.arr [])
                = .ok [.warningBox "No data available for moving average calculation"] := rfl
            rw [hm] at hacts
            injection hacts with hacts
            subst hacts
            simp at hchart
        | cons x xs => exact ⟨x, xs, rfl⟩

/-- Witness for C9 (amended): an empty-list result warns instead of charting. -/
theorem ma_tab_warning_and_chart_guard_witness :
    maTabRender (.arr [])
      = .ok [.warningBox "No data available for moving average calculation"] :=
  (ma_tab_warning_and_chart_guard (.arr [])).1 (by decide)
    (by intro xs h; injection h with h; exact h.symm)

end StockApp
